import Mathlib

/-!
Verification of the Tuya cover adapter
(`custom_components/tuya_v2/cover.py`).

The adapter exposes a vendor device record (category code plus a status
dictionary mapping data-point codes to values) as a host-platform cover
entity.  We embed the status dictionary as an association list of
string keys and dynamically typed values, and each entity property or
command method as a Lean function translated line by line from the
Python source.
-/

/-- A value held in the vendor status dictionary: the Python dict holds
booleans, numbers or strings. -/
inductive DPValue where
  | b (v : Bool)
  | n (v : Int)
  | s (v : String)
deriving DecidableEq, Repr

/-- Python truthiness of a status value, as used when a value read from
the dict appears in an `if` or `not` context. -/
def DPValue.truthy : DPValue → Bool
  | .b v => v
  | .n v => v != 0
  | .s v => v != ""

/-- Numeric coercion of a status value, as Python applies it in the
arithmetic `100 - position`: booleans count as 1 or 0, a string raises
a TypeError (modelled as `none`). -/
def DPValue.toNum : DPValue → Option Int
  | .b v => some (if v then 1 else 0)
  | .n v => some v
  | .s _ => none

/-- The vendor status dictionary, keyed by data-point code. -/
def TuyaStatus : Type := List (String × DPValue)

/-- First binding of `key` in the dictionary, if any. -/
def statusLookup : TuyaStatus → String → Option DPValue
  | [], _ => none
  | (k, v) :: rest, key => if k == key then some v else statusLookup rest key

/-- `dict.get(key, default)`: the bound value, or `default` when the key
is absent. -/
def statusGet (st : TuyaStatus) (key : String) (default : DPValue) : DPValue :=
  (statusLookup st key).getD default

/-- `key in dict`: key membership test. -/
def hasKey (st : TuyaStatus) (key : String) : Bool :=
  (statusLookup st key).isSome

/-- Data-point code for the curtain open/close/stop directive. -/
def DPCODE_CONTROL : String := "control"

/-- Data-point code written by set-position. -/
def DPCODE_PERCENT_CONTROL : String := "percent_control"

/-- Data-point code read for the curtain position. -/
def DPCODE_PERCENT_STATE : String := "percent_state"

/-- Garage door switch data-point code. -/
def DPCODE_GD_SWITCH1 : String := "switch_1"

/-- Garage door contact-sensor data-point code. -/
def DPCODE_GD_CSTATE : String := "doorcontact_state"

/-- Host-platform device-class constant for garage doors. -/
def DEVICE_CLASS_GARAGE : String := "garage"

/-- Host-platform device-class constant for curtains. -/
def DEVICE_CLASS_CURTAIN : String := "curtain"

/-- Host-platform cover feature flag: open. -/
def SUPPORT_OPEN : Nat := 1

/-- Host-platform cover feature flag: close. -/
def SUPPORT_CLOSE : Nat := 2

/-- Host-platform cover feature flag: set position. -/
def SUPPORT_SET_POSITION : Nat := 4

/-- Host-platform cover feature flag: stop. -/
def SUPPORT_STOP : Nat := 8

/-- Membership of a flag in a feature bitset. -/
def hasFeature (features flag : Nat) : Bool :=
  features &&& flag != 0

/-- The vendor device record: category code and status dictionary. -/
structure TuyaDevice where
  category : String
  status : TuyaStatus

/-- One vendor command, as passed to `_send_command`. -/
structure Command where
  code : String
  value : DPValue
deriving DecidableEq, Repr

/-- The cover entity: a device reference plus the device class chosen at
construction time (the `_type` field). -/
structure TuyaHaCover where
  tuya_device : TuyaDevice
  _type : String

/-- Entity construction as in `_setup_entities`: category `ckmkzq`
becomes a garage-door entity, every other supported category a curtain
entity. -/
def mkCover (device : TuyaDevice) : TuyaHaCover :=
  if device.category == "ckmkzq" then
    ⟨device, DEVICE_CLASS_GARAGE⟩
  else
    ⟨device, DEVICE_CLASS_CURTAIN⟩

/-- The `_is_garage` helper: the entity type equals the garage device
class. -/
def TuyaHaCover._is_garage (c : TuyaHaCover) : Bool :=
  c._type == DEVICE_CLASS_GARAGE

/-- The `device_class` property. -/
def TuyaHaCover.device_class (c : TuyaHaCover) : String :=
  c._type

/-- The `is_closed` property:
`not status.get(DPCODE_GD_CSTATE, False)` for garage doors, `False`
otherwise. -/
def TuyaHaCover.is_closed (c : TuyaHaCover) : Bool :=
  if c._is_garage then
    !(statusGet c.tuya_device.status DPCODE_GD_CSTATE (DPValue.b false)).truthy
  else
    false

/-- The `current_cover_position` property: for garage doors
`position = 0 if status.get(DPCODE_GD_CSTATE, False) else 100`, for
curtains `position = status.get(DPCODE_PERCENT_STATE, 0)`; the method
returns `100 - position`.  `none` models the TypeError Python would
raise on a non-numeric curtain percent value. -/
def TuyaHaCover.current_cover_position (c : TuyaHaCover) : Option Int :=
  let position : Option Int :=
    if c._is_garage then
      some (if (statusGet c.tuya_device.status DPCODE_GD_CSTATE (DPValue.b false)).truthy
            then 0 else 100)
    else
      (statusGet c.tuya_device.status DPCODE_PERCENT_STATE (DPValue.n 0)).toNum
  position.map (fun p => 100 - p)

/-- The command list `open_cover` passes to `_send_command`. -/
def TuyaHaCover.open_cover (c : TuyaHaCover) : List Command :=
  [⟨if c._is_garage then DPCODE_GD_SWITCH1 else DPCODE_CONTROL,
    if c._is_garage then DPValue.b true else DPValue.s "open"⟩]

/-- The command list `close_cover` passes to `_send_command`. -/
def TuyaHaCover.close_cover (c : TuyaHaCover) : List Command :=
  [⟨if c._is_garage then DPCODE_GD_SWITCH1 else DPCODE_CONTROL,
    if c._is_garage then DPValue.b true else DPValue.s "close"⟩]

/-- The command list `stop_cover` passes to `_send_command`. -/
def TuyaHaCover.stop_cover (_c : TuyaHaCover) : List Command :=
  [⟨DPCODE_CONTROL, DPValue.s "stop"⟩]

/-- The command list `set_cover_position` passes to `_send_command`,
with `position` the value of `kwargs[ATTR_POSITION]`. -/
def TuyaHaCover.set_cover_position (_c : TuyaHaCover) (position : Int) : List Command :=
  [⟨DPCODE_PERCENT_CONTROL, DPValue.n position⟩]

/-- The `supported_features` property. -/
def TuyaHaCover.supported_features (c : TuyaHaCover) : Nat :=
  let supports := SUPPORT_OPEN ||| SUPPORT_CLOSE
  let supports := if !c._is_garage then supports ||| SUPPORT_STOP else supports
  let supports :=
    if hasKey c.tuya_device.status DPCODE_PERCENT_CONTROL then
      supports ||| SUPPORT_SET_POSITION
    else supports
  supports

/-- The `extra_state_attributes` property: the raw status dictionary. -/
def TuyaHaCover.extra_state_attributes (c : TuyaHaCover) : TuyaStatus :=
  c.tuya_device.status

/-- A garage-door device whose contact sensor reads true. -/
def garageClosedContactDevice : TuyaDevice :=
  ⟨"ckmkzq", [("doorcontact_state", DPValue.b true)]⟩

/-- A garage-door device with an empty status dictionary. -/
def garageEmptyDevice : TuyaDevice :=
  ⟨"ckmkzq", []⟩

/-- A curtain device reporting percent_state 30. -/
def curtainDevice : TuyaDevice :=
  ⟨"cl", [("percent_state", DPValue.n 30)]⟩

/-- C1 counterexample: a garage door whose `doorcontact_state` is true
has `current_cover_position` 100, not 0 — the method inverts the
synthesized 0/100 value with `100 - position` before returning it. -/
theorem current_cover_position_garage_contact_true_ne_zero :
    (mkCover garageClosedContactDevice).current_cover_position = some 100 ∧
    (mkCover garageClosedContactDevice).current_cover_position ≠ some 0 := by
  decide

/-- C1 (amended): for every garage-door device (category `ckmkzq`),
`current_cover_position` is 100 when the `doorcontact_state` value in
the device status is truthy (defaulting to false when absent), and 0
otherwise. -/
theorem current_cover_position_garage_spec (d : TuyaDevice)
    (h : d.category = "ckmkzq") :
    (mkCover d).current_cover_position =
      some (if (statusGet d.status DPCODE_GD_CSTATE (DPValue.b false)).truthy
            then 100 else 0) := by
  unfold mkCover
  rw [h]
  by_cases ht : (statusGet d.status DPCODE_GD_CSTATE (DPValue.b false)).truthy <;>
    simp [TuyaHaCover.current_cover_position, TuyaHaCover._is_garage,
      DEVICE_CLASS_GARAGE, ht]

/-- C1 (amended) witness: at the concrete garage device with contact
sensor true, the position is 100. -/
theorem current_cover_position_garage_spec_witness :
    (mkCover garageClosedContactDevice).current_cover_position =
      some (if (statusGet garageClosedContactDevice.status DPCODE_GD_CSTATE
                  (DPValue.b false)).truthy
            then 100 else 0) :=
  current_cover_position_garage_spec garageClosedContactDevice rfl

/-- C2: for every garage-door device whose status binds
`doorcontact_state` to a boolean `v`, `is_closed` equals `!v`, the
logical negation of the sensor. -/
theorem is_closed_garage_negation (d : TuyaDevice)
    (h : d.category = "ckmkzq") (v : Bool)
    (hv : statusLookup d.status DPCODE_GD_CSTATE = some (DPValue.b v)) :
    (mkCover d).is_closed = !v := by
  unfold mkCover
  rw [h]
  simp [TuyaHaCover.is_closed, TuyaHaCover._is_garage, DEVICE_CLASS_GARAGE,
    statusGet, hv, DPValue.truthy]

/-- C2 witness: at the concrete garage device binding the contact
sensor to true, `is_closed` is `!true`. -/
theorem is_closed_garage_negation_witness :
    (mkCover garageClosedContactDevice).is_closed = !true :=
  is_closed_garage_negation garageClosedContactDevice rfl true rfl

/-- C3 counterexample: a garage door with `doorcontact_state` true has
`is_closed` false, not true — the method negates the sensor value. -/
theorem is_closed_garage_contact_true_not_true :
    (mkCover garageClosedContactDevice).is_closed = false ∧
    (mkCover garageClosedContactDevice).is_closed ≠ true := by
  decide

/-- C3 (amended): for a garage-door device whose status has
`doorcontact_state` set to true, `is_closed` returns false. -/
theorem is_closed_garage_contact_true (d : TuyaDevice)
    (h : d.category = "ckmkzq")
    (hv : statusLookup d.status DPCODE_GD_CSTATE = some (DPValue.b true)) :
    (mkCover d).is_closed = false := by
  unfold mkCover
  rw [h]
  simp [TuyaHaCover.is_closed, TuyaHaCover._is_garage, DEVICE_CLASS_GARAGE,
    statusGet, hv, DPValue.truthy]

/-- C3 (amended) witness: the concrete garage device with contact
sensor true reports not-closed. -/
theorem is_closed_garage_contact_true_witness :
    (mkCover garageClosedContactDevice).is_closed = false :=
  is_closed_garage_contact_true garageClosedContactDevice rfl rfl

/-- C4 counterexample: a garage door whose status lacks
`doorcontact_state` has `is_closed` true, not false — the default false
is negated, so the cover is reported closed. -/
theorem is_closed_garage_missing_key_not_false :
    (mkCover garageEmptyDevice).is_closed = true ∧
    (mkCover garageEmptyDevice).is_closed ≠ false := by
  decide

/-- C4 (amended): for every garage-door device whose status lacks the
`doorcontact_state` key, the missing boolean defaults silently to false
and `is_closed` reports the cover as closed (`is_closed` is true). -/
theorem is_closed_garage_missing_key (d : TuyaDevice)
    (h : d.category = "ckmkzq")
    (hv : statusLookup d.status DPCODE_GD_CSTATE = none) :
    (mkCover d).is_closed = true := by
  unfold mkCover
  rw [h]
  simp [TuyaHaCover.is_closed, TuyaHaCover._is_garage, DEVICE_CLASS_GARAGE,
    statusGet, hv, DPValue.truthy]

/-- C4 (amended) witness: the concrete garage device with empty status
reports closed. -/
theorem is_closed_garage_missing_key_witness :
    (mkCover garageEmptyDevice).is_closed = true :=
  is_closed_garage_missing_key garageEmptyDevice rfl rfl

/-- C5: for every garage-door device, `close_cover` sends exactly the
same command payload as `open_cover`, namely a single
`{code: switch_1, value: True}` command; in particular the close
command carries the boolean true. -/
theorem close_cover_garage_same_as_open (d : TuyaDevice)
    (h : d.category = "ckmkzq") :
    (mkCover d).close_cover = (mkCover d).open_cover ∧
    (mkCover d).close_cover = [⟨DPCODE_GD_SWITCH1, DPValue.b true⟩] := by
  unfold mkCover
  rw [h]
  simp [TuyaHaCover.close_cover, TuyaHaCover.open_cover,
    TuyaHaCover._is_garage, DEVICE_CLASS_GARAGE]

/-- C5 witness: at the concrete garage device, close and open emit the
same single switch command. -/
theorem close_cover_garage_same_as_open_witness :
    (mkCover garageEmptyDevice).close_cover = (mkCover garageEmptyDevice).open_cover ∧
    (mkCover garageEmptyDevice).close_cover = [⟨DPCODE_GD_SWITCH1, DPValue.b true⟩] :=
  close_cover_garage_same_as_open garageEmptyDevice rfl

/-- C6: for every device (any device class) and every position
argument, `set_cover_position` sends a single `percent_control` command
whose value is the requested percentage verbatim — no `100 - x`
inversion and no range validation. -/
theorem set_cover_position_verbatim (d : TuyaDevice) (position : Int) :
    (mkCover d).set_cover_position position =
      [⟨DPCODE_PERCENT_CONTROL, DPValue.n position⟩] :=
  rfl

/-- C7: for every device, including garage doors, `stop_cover`
unconditionally sends the single `{code: control, value: stop}`
command. -/
theorem stop_cover_unconditional (d : TuyaDevice) :
    (mkCover d).stop_cover = [⟨DPCODE_CONTROL, DPValue.s "stop"⟩] :=
  rfl

/-- C8: for every curtain (non-garage) device, `current_cover_position`
is 100 minus the raw `percent_state` value, with an absent key
defaulting to 0 so the position is 100. -/
theorem current_cover_position_curtain (d : TuyaDevice)
    (h : d.category ≠ "ckmkzq") :
    (statusLookup d.status DPCODE_PERCENT_STATE = none →
      (mkCover d).current_cover_position = some 100) ∧
    (∀ p : Int,
      statusLookup d.status DPCODE_PERCENT_STATE = some (DPValue.n p) →
      (mkCover d).current_cover_position = some (100 - p)) := by
  constructor
  · intro hv
    unfold mkCover
    simp only [beq_iff_eq, h, if_false]
    simp [TuyaHaCover.current_cover_position, TuyaHaCover._is_garage,
      DEVICE_CLASS_CURTAIN, DEVICE_CLASS_GARAGE, statusGet, hv, DPValue.toNum]
  · intro p hv
    unfold mkCover
    simp only [beq_iff_eq, h, if_false]
    simp [TuyaHaCover.current_cover_position, TuyaHaCover._is_garage,
      DEVICE_CLASS_CURTAIN, DEVICE_CLASS_GARAGE, statusGet, hv, DPValue.toNum]

/-- C8 witness: the concrete curtain device with `percent_state` 30
reports position 70. -/
theorem current_cover_position_curtain_witness :
    (mkCover curtainDevice).current_cover_position = some 70 := by
  have h := (current_cover_position_curtain curtainDevice (by decide)).2 30 rfl
  simpa using h

/-- C9: for every device, `supported_features` always includes open and
close; it includes stop exactly when the device is not a garage door
(category `ckmkzq`); and it includes set-position exactly when the
`percent_control` key is present in the device status. -/
theorem supported_features_spec (d : TuyaDevice) :
    hasFeature (mkCover d).supported_features SUPPORT_OPEN = true ∧
    hasFeature (mkCover d).supported_features SUPPORT_CLOSE = true ∧
    (hasFeature (mkCover d).supported_features SUPPORT_STOP = true ↔
      d.category ≠ "ckmkzq") ∧
    (hasFeature (mkCover d).supported_features SUPPORT_SET_POSITION = true ↔
      hasKey d.status DPCODE_PERCENT_CONTROL = true) := by
  by_cases hg : d.category = "ckmkzq" <;>
    cases hp : hasKey d.status DPCODE_PERCENT_CONTROL <;>
    unfold mkCover <;>
    simp only [beq_iff_eq, hg, if_true, if_false] <;>
    simp [TuyaHaCover.supported_features, TuyaHaCover._is_garage,
      DEVICE_CLASS_GARAGE, DEVICE_CLASS_CURTAIN, hasFeature, hp, hg,
      SUPPORT_OPEN, SUPPORT_CLOSE, SUPPORT_STOP, SUPPORT_SET_POSITION] <;>
    decide

/-- C10: for every curtain (non-garage) device, whatever its status,
`is_closed` returns false — a curtain never reports closed. -/
theorem is_closed_curtain_always_false (d : TuyaDevice)
    (h : d.category ≠ "ckmkzq") :
    (mkCover d).is_closed = false := by
  unfold mkCover
  simp only [beq_iff_eq, h, if_false]
  simp [TuyaHaCover.is_closed, TuyaHaCover._is_garage,
    DEVICE_CLASS_CURTAIN, DEVICE_CLASS_GARAGE]

/-- C10 witness: the concrete curtain device reports not-closed. -/
theorem is_closed_curtain_always_false_witness :
    (mkCover curtainDevice).is_closed = false :=
  is_closed_curtain_always_false curtainDevice (by decide)
